import Mathlib

/-!
Shallow embedding of the customer feedback service (src/main.py, src/models.py).

The storage is modelled as an explicit state: lists of `Product` and
`FeedbackEntry` rows together with the surrogate-key counters and a logical
clock standing for the storage timestamps.  SQL float scores are modelled
as rationals.  Each HTTP handler becomes a function from the committed
storage state to a pair of an `Except` result (errors carry the HTTP status
and detail of the `HTTPException`, or mark an uncaught exception) and the
committed storage state after the handler finishes.
-/

set_option autoImplicit false

namespace FeedbackApp

/-- Row of the `products` table (src/models.py, class Product):
surrogate `id`, unique external `product_id`, display `name`, and a
storage-assigned `created_at` timestamp (modelled as a logical clock tick). -/
structure Product where
  id : Nat
  product_id : String
  name : String
  created_at : Nat
deriving Repr, DecidableEq

/-- Row of the `feedback_entries` table (src/models.py, class FeedbackEntry):
surrogate `id`, foreign-key `product_id`, float `score` (modelled as a
rational; the column carries no range constraint), optional `comment`,
storage-assigned `created_at`. -/
structure FeedbackEntry where
  id : Nat
  product_id : String
  score : ℚ
  comment : Option String
  created_at : Nat
deriving Repr, DecidableEq

/-- The relational store: the two tables, the autoincrement counters for the
surrogate primary keys, and a logical clock used for `created_at` values. -/
structure DBState where
  products : List Product
  feedback_entries : List FeedbackEntry
  next_product_pk : Nat
  next_feedback_pk : Nat
  clock : Nat
deriving Repr, DecidableEq

/-- Errors a handler can finish with: a raised `HTTPException` with status
code and detail, or an exception that no handler code catches (FastAPI would
turn it into a 500). -/
inductive ApiError where
  | httpException (status : Nat) (detail : String)
  | uncaught (msg : String)
deriving Repr, DecidableEq

deriving instance DecidableEq for Except

/-- `db.query(Product).filter(Product.product_id == pid).first()` is some
row or none; the handlers only test existence. -/
def hasProduct (st : DBState) (pid : String) : Bool :=
  st.products.any (fun p => p.product_id == pid)

/-- Stage `Product(product_id=pid, name="Product " + pid)`: the row gets the
next surrogate key and the storage timestamp. -/
def stageProduct (st : DBState) (pid : String) : DBState :=
  { st with
    products := st.products ++ [⟨st.next_product_pk, pid, "Product " ++ pid, st.clock⟩]
    next_product_pk := st.next_product_pk + 1
    clock := st.clock + 1 }

/-- Stage `FeedbackEntry(product_id=pid, score=score, comment=comment)`;
returns the new state together with the persisted row (what `db.refresh`
reads back: generated `id` and `created_at` included). -/
def stageFeedback (st : DBState) (pid : String) (score : ℚ) (comment : Option String) :
    DBState × FeedbackEntry :=
  let e : FeedbackEntry := ⟨st.next_feedback_pk, pid, score, comment, st.clock⟩
  ({ st with
      feedback_entries := st.feedback_entries ++ [e]
      next_feedback_pk := st.next_feedback_pk + 1
      clock := st.clock + 1 }, e)

/-- A create-feedback request body before validation: pydantic sees each
field as present or missing. -/
structure RawFeedbackRequest where
  product_id : Option String
  score : Option ℚ
  comment : Option String
deriving Repr, DecidableEq

/-- The validated pydantic model `FeedbackCreate` (src/main.py lines 19-22):
`product_id : str`, `score : float = Field(..., ge=1.0, le=5.0)`,
`comment : Optional[str] = None`. -/
structure FeedbackCreate where
  product_id : String
  score : ℚ
  comment : Option String
deriving Repr, DecidableEq

/-- Pydantic validation of the request body: both required fields must be
present and the score must satisfy `1.0 <= score <= 5.0`; otherwise the
framework rejects the request with a 422 before the handler runs. -/
def FeedbackCreate.validate (r : RawFeedbackRequest) : Except ApiError FeedbackCreate :=
  match r.product_id with
  | none => .error (.httpException 422 "Field required: product_id")
  | some pid =>
    match r.score with
    | none => .error (.httpException 422 "Field required: score")
    | some s =>
      if 1 ≤ s ∧ s ≤ 5 then .ok ⟨pid, s, r.comment⟩
      else .error (.httpException 422 "Input should be between 1 and 5")

/-- External circumstances of one `create_feedback` call:
`concurrent_product_insert` is true when another request commits a Product
with the same `product_id` between this handler's lookup and its commit, so
that the unique constraint on `products.product_id` rejects this handler's
insert with an IntegrityError. -/
structure StorageEnv where
  concurrent_product_insert : Bool
deriving Repr, DecidableEq

/-- Handler of `POST /feedback/` (src/main.py lines 44-65): look the product
up; if absent, insert and commit it (the source wraps this in no
try/except, so a constraint violation at that commit propagates uncaught);
then insert the feedback row, commit, and return the persisted row. -/
def create_feedback (env : StorageEnv) (fb : FeedbackCreate) (st : DBState) :
    Except ApiError FeedbackEntry × DBState :=
  if hasProduct st fb.product_id then
    let r := stageFeedback st fb.product_id fb.score fb.comment
    (.ok r.2, r.1)
  else
    if env.concurrent_product_insert then
      (.error (.uncaught "UNIQUE constraint failed: products.product_id"), st)
    else
      let st1 := stageProduct st fb.product_id
      let r := stageFeedback st1 fb.product_id fb.score fb.comment
      (.ok r.2, r.1)

/-- The full `POST /feedback/` route: pydantic validation happens before the
handler body, so a validation failure touches no storage. -/
def post_feedback (env : StorageEnv) (raw : RawFeedbackRequest) (st : DBState) :
    Except ApiError FeedbackEntry × DBState :=
  match FeedbackCreate.validate raw with
  | .error e => (.error e, st)
  | .ok fb => create_feedback env fb st

/-- Handler of `GET /` (src/main.py lines 40-42): constant response, the
database is not consulted. -/
def home (st : DBState) : Except ApiError (String × String) × DBState :=
  (.ok ("Feedback API is running!", "/docs"), st)

/-- Handler of `GET /feedback/` (src/main.py lines 67-71): every feedback
row, in storage-native order. -/
def get_all_feedback (st : DBState) : Except ApiError (List FeedbackEntry) × DBState :=
  (.ok st.feedback_entries, st)

/-- One record of the averages response (pydantic model ProductAverage). -/
structure ProductAverage where
  product_id : String
  average_score : ℚ
  feedback_count : Nat
deriving Repr, DecidableEq

/-- `round(x, 2)`: round to two decimal places. -/
def round2 (q : ℚ) : ℚ := (⌊q * 100 + 1 / 2⌋ : ℚ) / 100

/-- The GROUP BY group of feedback rows sharing a `product_id`. -/
def groupRows (st : DBState) (pid : String) : List FeedbackEntry :=
  st.feedback_entries.filter (fun e => e.product_id == pid)

/-- One output record of the averages query: `AVG(score)` rounded to two
decimals and `COUNT(id)` over the group. -/
def averageRow (st : DBState) (pid : String) : ProductAverage :=
  let grp := groupRows st pid
  ⟨pid, round2 (((grp.map FeedbackEntry.score).sum) / (grp.length : ℚ)), grp.length⟩

/-- Rows of the aggregation query (src/main.py lines 77-90): one record per
distinct `product_id` appearing among the feedback rows. -/
def product_average_rows (st : DBState) : List ProductAverage :=
  ((st.feedback_entries.map FeedbackEntry.product_id).dedup).map (averageRow st)

/-- Handler of `GET /feedback/averages/` (src/main.py lines 73-90). -/
def get_product_averages (st : DBState) : Except ApiError (List ProductAverage) × DBState :=
  (.ok (product_average_rows st), st)

/-- Handler of `GET /feedback/product/{product_id}` (src/main.py lines
92-98): filter by exact `product_id`; 404 with a fixed detail when the
result list is empty. -/
def get_feedback_by_product (pid : String) (st : DBState) :
    Except ApiError (List FeedbackEntry) × DBState :=
  let fb := st.feedback_entries.filter (fun e => e.product_id == pid)
  if fb.isEmpty then
    (.error (.httpException 404 "No feedback found for this product"), st)
  else
    (.ok fb, st)

/-- One data row of `feedback.csv` as pandas hands it to the loop: the raw
`score` cell either coerces to a float or makes `float(...)` raise with a
message. -/
inductive Cell where
  | num : ℚ → Cell
  | bad : String → Cell
deriving Repr, DecidableEq

/-- `float(row['score'])`: the coercion of the raw score cell. -/
def coerceFloat : Cell → Except String ℚ
  | .num q => .ok q
  | .bad s => .error ("could not convert string to float: " ++ s)

/-- A parsed CSV data row with columns `product_id, score, comment`. -/
structure CsvRow where
  product_id : String
  score : Cell
  comment : Option String
deriving Repr, DecidableEq

/-- Modelled from the spec: the session construction (database.py) is not
under src/, so the visibility of staged-but-uncommitted rows to the per-row
existence check follows the spec's CSV edge case, which requires the
importer to see products already staged in the current batch; hence
`hasProduct` runs on the working state that includes staged rows.  The rest
is src/main.py lines 107-122: per row, stage the product if unknown, then
stage a feedback row with the coerced score; a coercion failure aborts the
whole loop with the underlying message; nothing is committed inside the
loop. -/
def uploadLoop : List CsvRow → DBState → Nat → Except String (Nat × DBState)
  | [], w, n => .ok (n, w)
  | r :: rest, w, n =>
    let w1 := if hasProduct w r.product_id then w else stageProduct w r.product_id
    match coerceFloat r.score with
    | .error msg => .error msg
    | .ok q => uploadLoop rest (stageFeedback w1 r.product_id q r.comment).1 (n + 1)

/-- Handler of `POST /upload-csv/` (src/main.py lines 100-128): read
`feedback.csv` (the read itself may fail with a message), run the row loop,
commit once at the end on success; any exception is caught and re-raised as
a 400 whose detail wraps the underlying message, and in that case the
single commit was never reached, so the committed storage is unchanged. -/
def upload_csv_data (file : Except String (List CsvRow)) (st : DBState) :
    Except ApiError String × DBState :=
  match file with
  | .error msg => (.error (.httpException 400 ("Error processing CSV: " ++ msg)), st)
  | .ok rows =>
    match uploadLoop rows st 0 with
    | .error msg => (.error (.httpException 400 ("Error processing CSV: " ++ msg)), st)
    | .ok (n, w) =>
      (.ok ("Successfully imported " ++ toString n ++ " feedback entries"), w)

/-- An empty database, counters at their initial values. -/
def emptyDB : DBState := ⟨[], [], 1, 1, 0⟩

/-- Two products "A" and "B"; "A" has feedback scores 4.0 and 5.0, "B" has
none. -/
def exampleAB : DBState :=
  ⟨[⟨1, "A", "Product A", 0⟩, ⟨2, "B", "Product B", 0⟩],
   [⟨1, "A", 4, none, 1⟩, ⟨2, "A", 5, none, 2⟩], 3, 3, 3⟩

/-- A CSV batch whose two rows share the brand-new product id "newP". -/
def dupRows : List CsvRow :=
  [⟨"newP", Cell.num 4, none⟩, ⟨"newP", Cell.num 5, some "great"⟩]

/-- A CSV batch with a score outside the `[1.0, 5.0]` range. -/
def csvOutOfRange : List CsvRow := [⟨"P", Cell.num 7, none⟩]

/-- C9: the read endpoints — home, get_all_feedback, get_product_averages,
and get_feedback_by_product — leave storage completely unchanged, on both
success and not-found outcomes. -/
theorem read_endpoints_pure (st : DBState) (pid : String) :
    (home st).2 = st ∧ (get_all_feedback st).2 = st
    ∧ (get_product_averages st).2 = st
    ∧ (get_feedback_by_product pid st).2 = st := by
  refine ⟨rfl, rfl, rfl, ?_⟩
  by_cases hc : (st.feedback_entries.filter (fun e => e.product_id == pid)).isEmpty <;>
    simp [get_feedback_by_product, hc]

/-- C5: get_feedback_by_product returns exactly the FeedbackEntry rows whose
product_id matches, and fails with 404 "No feedback found for this product"
if and only if zero rows match (independently of whether a Product row with
that id exists). -/
theorem get_feedback_by_product_spec (pid : String) (st : DBState) :
    (st.feedback_entries.filter (fun e => e.product_id == pid) = [] →
      get_feedback_by_product pid st
        = (.error (.httpException 404 "No feedback found for this product"), st))
    ∧ (st.feedback_entries.filter (fun e => e.product_id == pid) ≠ [] →
      get_feedback_by_product pid st
        = (.ok (st.feedback_entries.filter (fun e => e.product_id == pid)), st))
    ∧ (∀ e ∈ st.feedback_entries.filter (fun e => e.product_id == pid),
        e.product_id = pid ∧ e ∈ st.feedback_entries)
    ∧ (∀ e ∈ st.feedback_entries, e.product_id = pid →
        e ∈ st.feedback_entries.filter (fun e => e.product_id == pid)) := by
  refine ⟨fun h => ?_, fun h => ?_, fun e he => ?_, fun e he hpe => ?_⟩
  · simp [get_feedback_by_product, h]
  · simp [get_feedback_by_product, List.isEmpty_iff, h]
  · rw [List.mem_filter] at he
    exact ⟨by simpa using he.2, he.1⟩
  · rw [List.mem_filter]
    exact ⟨he, by simpa using hpe⟩

/-- C5 witness: product "B" exists in exampleAB but has zero feedback, and
the endpoint yields the 404 signal, not an empty array. -/
theorem get_feedback_by_product_spec_witness :
    get_feedback_by_product "B" exampleAB
      = (.error (.httpException 404 "No feedback found for this product"), exampleAB) :=
  (get_feedback_by_product_spec "B" exampleAB).1 (by decide)

/-- C3: scores of exactly 1.0 and 5.0 pass validation, while scores below
1.0 or above 5.0, and requests missing a required field, are rejected with
a 422 client error and the storage state is returned unchanged. -/
theorem feedback_validation_spec (env : StorageEnv) (st : DBState)
    (pid : String) (c : Option String) (s : ℚ) :
    ((s = 1 ∨ s = 5) → (FeedbackCreate.validate ⟨some pid, some s, c⟩).isOk = true)
    ∧ ((s < 1 ∨ 5 < s) →
        post_feedback env ⟨some pid, some s, c⟩ st
          = (.error (.httpException 422 "Input should be between 1 and 5"), st))
    ∧ (∀ sc : Option ℚ, ∀ cc : Option String,
        post_feedback env ⟨none, sc, cc⟩ st
          = (.error (.httpException 422 "Field required: product_id"), st))
    ∧ post_feedback env ⟨some pid, none, c⟩ st
        = (.error (.httpException 422 "Field required: score"), st) := by
  refine ⟨fun h => ?_, fun h => ?_, fun sc cc => rfl, rfl⟩
  · have hin : (1 : ℚ) ≤ s ∧ s ≤ 5 := by
      rcases h with h | h <;> rw [h] <;> norm_num
    simp [FeedbackCreate.validate, hin, Except.isOk, Except.toBool]
  · have hout : ¬((1 : ℚ) ≤ s ∧ s ≤ 5) := by
      rcases h with h | h <;> intro hin <;> linarith [hin.1, hin.2]
    simp [post_feedback, FeedbackCreate.validate, hout]

/-- C3 witness: 1.0 and 5.0 accepted; 0.99 and 5.01 rejected with 422 and
unchanged storage; missing product_id and missing score rejected with 422
and unchanged storage. -/
theorem feedback_validation_spec_witness :
    (FeedbackCreate.validate ⟨some "A", some 1, none⟩).isOk = true
    ∧ (FeedbackCreate.validate ⟨some "A", some 5, none⟩).isOk = true
    ∧ post_feedback ⟨false⟩ ⟨some "A", some (99 / 100), none⟩ emptyDB
        = (.error (.httpException 422 "Input should be between 1 and 5"), emptyDB)
    ∧ post_feedback ⟨false⟩ ⟨some "A", some (501 / 100), none⟩ emptyDB
        = (.error (.httpException 422 "Input should be between 1 and 5"), emptyDB)
    ∧ post_feedback ⟨false⟩ ⟨none, some 3, none⟩ emptyDB
        = (.error (.httpException 422 "Field required: product_id"), emptyDB)
    ∧ post_feedback ⟨false⟩ ⟨some "A", none, none⟩ emptyDB
        = (.error (.httpException 422 "Field required: score"), emptyDB) :=
  ⟨(feedback_validation_spec ⟨false⟩ emptyDB "A" none 1).1 (Or.inl rfl),
   (feedback_validation_spec ⟨false⟩ emptyDB "A" none 5).1 (Or.inr rfl),
   (feedback_validation_spec ⟨false⟩ emptyDB "A" none (99 / 100)).2.1 (Or.inl (by norm_num)),
   (feedback_validation_spec ⟨false⟩ emptyDB "A" none (501 / 100)).2.1 (Or.inr (by norm_num)),
   (feedback_validation_spec ⟨false⟩ emptyDB "A" none 3).2.2.1 (some 3) none,
   (feedback_validation_spec ⟨false⟩ emptyDB "A" none 3).2.2.2⟩

/-- C4: creating feedback for a product_id with no matching Product row (and
no race) inserts one Product named "Product " ++ product_id and one
FeedbackEntry, returns the persisted row with its generated id and
created_at, and exactly one Product row and one FeedbackEntry row for that
product_id result. -/
theorem create_feedback_new_product (fb : FeedbackCreate) (st : DBState)
    (hp : hasProduct st fb.product_id = false)
    (hf : st.feedback_entries.filter (fun e => e.product_id == fb.product_id) = []) :
    ∃ e st',
      create_feedback ⟨false⟩ fb st = (.ok e, st')
      ∧ st'.products = st.products ++
          [⟨st.next_product_pk, fb.product_id, "Product " ++ fb.product_id, st.clock⟩]
      ∧ st'.feedback_entries = st.feedback_entries ++ [e]
      ∧ e.product_id = fb.product_id ∧ e.score = fb.score ∧ e.comment = fb.comment
      ∧ e.id = st.next_feedback_pk ∧ e.created_at = st.clock + 1
      ∧ (st'.products.filter (fun p => p.product_id == fb.product_id)).length = 1
      ∧ (st'.feedback_entries.filter (fun e2 => e2.product_id == fb.product_id)).length = 1 := by
  have hpf : st.products.filter (fun p => p.product_id == fb.product_id) = [] := by
    simp only [hasProduct, List.any_eq_false, beq_iff_eq] at hp
    rw [List.filter_eq_nil_iff]
    intro p hp2
    simpa using hp p hp2
  refine ⟨⟨st.next_feedback_pk, fb.product_id, fb.score, fb.comment, st.clock + 1⟩,
    ⟨st.products ++ [⟨st.next_product_pk, fb.product_id, "Product " ++ fb.product_id, st.clock⟩],
     st.feedback_entries ++
       [⟨st.next_feedback_pk, fb.product_id, fb.score, fb.comment, st.clock + 1⟩],
     st.next_product_pk + 1, st.next_feedback_pk + 1, st.clock + 2⟩,
    ?_, rfl, rfl, rfl, rfl, rfl, rfl, rfl, ?_, ?_⟩
  · simp [create_feedback, hp, stageProduct, stageFeedback]
  · simp [List.filter_append, hpf]
  · simp [List.filter_append, hf]

/-- C4 witness: creating feedback ⟨"X", 3, none⟩ on the empty database. -/
theorem create_feedback_new_product_witness :
    ∃ e st',
      create_feedback ⟨false⟩ ⟨"X", 3, none⟩ emptyDB = (.ok e, st')
      ∧ st'.products = emptyDB.products ++
          [⟨emptyDB.next_product_pk, "X", "Product " ++ "X", emptyDB.clock⟩]
      ∧ st'.feedback_entries = emptyDB.feedback_entries ++ [e]
      ∧ e.product_id = "X" ∧ e.score = 3 ∧ e.comment = none
      ∧ e.id = emptyDB.next_feedback_pk ∧ e.created_at = emptyDB.clock + 1
      ∧ (st'.products.filter (fun p => p.product_id == "X")).length = 1
      ∧ (st'.feedback_entries.filter (fun e2 => e2.product_id == "X")).length = 1 :=
  create_feedback_new_product ⟨"X", 3, none⟩ emptyDB (by decide) (by decide)

/-- C8 counterexample: with a concurrent insert committing the same
product_id first, the uniqueness violation at the product commit is
surfaced as an uncaught error — create_feedback returns no feedback row, so
the claimed local recovery does not happen. -/
theorem create_feedback_race_counterexample :
    create_feedback ⟨true⟩ ⟨"P", 3, none⟩ emptyDB
      = (.error (.uncaught "UNIQUE constraint failed: products.product_id"), emptyDB)
    ∧ ∀ e : FeedbackEntry, (create_feedback ⟨true⟩ ⟨"P", 3, none⟩ emptyDB).1 ≠ .ok e := by
  refine ⟨by decide, fun e h => ?_⟩
  rw [show create_feedback ⟨true⟩ ⟨"P", 3, none⟩ emptyDB
      = (.error (.uncaught "UNIQUE constraint failed: products.product_id"), emptyDB)
    from by decide] at h
  exact Except.noConfusion h

/-- C8 amended: when the Product insert fails with the uniqueness violation,
create_feedback has no recovery path — the source wraps the insert in no
try/except — so the error propagates uncaught to the caller and no
FeedbackEntry is inserted. -/
theorem create_feedback_race_propagates (fb : FeedbackCreate) (st : DBState)
    (hp : hasProduct st fb.product_id = false) :
    create_feedback ⟨true⟩ fb st
      = (.error (.uncaught "UNIQUE constraint failed: products.product_id"), st) := by
  simp [create_feedback, hp]

/-- C8 amended witness: the race on product "Q" over the empty database. -/
theorem create_feedback_race_propagates_witness :
    create_feedback ⟨true⟩ ⟨"Q", 2, none⟩ emptyDB
      = (.error (.uncaught "UNIQUE constraint failed: products.product_id"), emptyDB) :=
  create_feedback_race_propagates ⟨"Q", 2, none⟩ emptyDB (by decide)

/-- C10: the CSV importer applies no score range check: a CSV row with score
7.0 imports successfully and persists a FeedbackEntry with score above 5,
while the same score is rejected by the POST /feedback/ validation. -/
theorem csv_score_unchecked :
    (upload_csv_data (.ok csvOutOfRange) emptyDB).1
        = .ok "Successfully imported 1 feedback entries"
    ∧ (∃ e ∈ (upload_csv_data (.ok csvOutOfRange) emptyDB).2.feedback_entries,
        e.score = 7 ∧ 5 < e.score)
    ∧ FeedbackCreate.validate ⟨some "P", some 7, none⟩
        = .error (.httpException 422 "Input should be between 1 and 5") := by
  have hout : ¬((1 : ℚ) ≤ 7 ∧ (7 : ℚ) ≤ 5) := by norm_num
  have h1 : (upload_csv_data (.ok csvOutOfRange) emptyDB).1
      = .ok "Successfully imported 1 feedback entries" := by decide
  have h2 : (5 : ℚ) < FeedbackEntry.score ⟨1, "P", 7, none, 1⟩ := by norm_num
  have h3 : FeedbackCreate.validate ⟨some "P", some 7, none⟩
      = .error (.httpException 422 "Input should be between 1 and 5") := by
    norm_num [FeedbackCreate.validate]
  exact ⟨h1, ⟨⟨1, "P", 7, none, 1⟩, by decide, rfl, h2⟩, h3⟩

theorem stageProduct_keys (st : DBState) (pid : String) :
    (stageProduct st pid).products.map Product.product_id
      = st.products.map Product.product_id ++ [pid] := by
  simp [stageProduct]

theorem stageFeedback_entries (st : DBState) (pid : String) (q : ℚ) (c : Option String) :
    (stageFeedback st pid q c).1.feedback_entries
      = st.feedback_entries ++ [⟨st.next_feedback_pk, pid, q, c, st.clock⟩] := rfl

theorem stageFeedback_products (st : DBState) (pid : String) (q : ℚ) (c : Option String) :
    (stageFeedback st pid q c).1.products = st.products := rfl

theorem hasProduct_false_notmem {st : DBState} {pid : String}
    (h : hasProduct st pid = false) : pid ∉ st.products.map Product.product_id := by
  intro hmem
  rw [List.mem_map] at hmem
  obtain ⟨p, hp, hpe⟩ := hmem
  simp only [hasProduct, List.any_eq_false, beq_iff_eq] at h
  exact h p hp hpe

theorem uploadLoop_ok (rows : List CsvRow) : ∀ (w : DBState) (n : Nat),
    (∀ r ∈ rows, (coerceFloat r.score).isOk = true) →
    ∃ w', uploadLoop rows w n = .ok (n + rows.length, w')
      ∧ w'.feedback_entries.map FeedbackEntry.product_id
          = w.feedback_entries.map FeedbackEntry.product_id ++ rows.map CsvRow.product_id
      ∧ w'.feedback_entries.map FeedbackEntry.score
          = w.feedback_entries.map FeedbackEntry.score
            ++ rows.map (fun r => ((coerceFloat r.score).toOption).getD 0)
      ∧ w'.feedback_entries.map FeedbackEntry.comment
          = w.feedback_entries.map FeedbackEntry.comment ++ rows.map CsvRow.comment
      ∧ w'.feedback_entries.length = w.feedback_entries.length + rows.length := by
  induction rows with
  | nil =>
    intro w n _
    exact ⟨w, by simp [uploadLoop], by simp, by simp, by simp, by simp⟩
  | cons r rest ih =>
    intro w n h
    obtain ⟨q, hq⟩ : ∃ q, coerceFloat r.score = .ok q := by
      have hr := h r (by simp)
      cases hc : coerceFloat r.score with
      | ok q => exact ⟨q, rfl⟩
      | error m => rw [hc] at hr; simp [Except.isOk, Except.toBool] at hr
    obtain ⟨w', hloop, hpid, hsc, hcm, hlen⟩ :=
      ih ((stageFeedback (if hasProduct w r.product_id then w
            else stageProduct w r.product_id) r.product_id q r.comment).1) (n + 1)
        (fun x hx => h x (by simp [hx]))
    have hw1f : (if hasProduct w r.product_id then w
        else stageProduct w r.product_id).feedback_entries = w.feedback_entries := by
      split <;> simp [stageProduct]
    refine ⟨w', ?_, ?_, ?_, ?_, ?_⟩
    · simp only [uploadLoop, hq]
      rw [hloop]
      simp only [List.length_cons]
      congr 2
      omega
    · rw [hpid, stageFeedback_entries, hw1f]; simp
    · rw [hsc, stageFeedback_entries, hw1f]; simp [hq, Except.toOption]
    · rw [hcm, stageFeedback_entries, hw1f]; simp
    · rw [hlen, stageFeedback_entries, hw1f]; simp; omega

theorem uploadLoop_err (rows : List CsvRow) : ∀ (w : DBState) (n : Nat),
    (∃ r ∈ rows, (coerceFloat r.score).isOk = false) →
    ∃ msg, uploadLoop rows w n = .error msg := by
  induction rows with
  | nil => intro w n h; simp at h
  | cons r rest ih =>
    intro w n h
    cases hc : coerceFloat r.score with
    | error m => exact ⟨m, by simp [uploadLoop, hc]⟩
    | ok q =>
      have hrest : ∃ x ∈ rest, (coerceFloat x.score).isOk = false := by
        rcases h with ⟨x, hx, hxf⟩
        rcases List.mem_cons.mp hx with rfl | hx2
        · rw [hc] at hxf; simp [Except.isOk, Except.toBool] at hxf
        · exact ⟨x, hx2, hxf⟩
      obtain ⟨msg, hmsg⟩ :=
        ih ((stageFeedback (if hasProduct w r.product_id then w
              else stageProduct w r.product_id) r.product_id q r.comment).1) (n + 1) hrest
      exact ⟨msg, by simp only [uploadLoop, hc]; exact hmsg⟩

theorem uploadLoop_nodup (rows : List CsvRow) : ∀ (w : DBState) (n m : Nat) (w' : DBState),
    (w.products.map Product.product_id).Nodup →
    uploadLoop rows w n = .ok (m, w') →
    (w'.products.map Product.product_id).Nodup := by
  induction rows with
  | nil =>
    intro w n m w' hn h
    simp only [uploadLoop, Except.ok.injEq, Prod.mk.injEq] at h
    rw [← h.2]; exact hn
  | cons r rest ih =>
    intro w n m w' hn h
    cases hc : coerceFloat r.score with
    | error msg =>
      simp only [uploadLoop, hc] at h
      exact Except.noConfusion h
    | ok q =>
      simp only [uploadLoop, hc] at h
      apply ih _ (n + 1) m w' ?_ h
      rw [stageFeedback_products]
      by_cases hp : hasProduct w r.product_id
      · simpa [hp] using hn
      · rw [if_neg hp, stageProduct_keys]
        rw [List.nodup_append]
        exact ⟨hn, List.nodup_singleton _,
          fun a ha hb => by
            rw [List.mem_singleton] at hb
            exact hasProduct_false_notmem (Bool.eq_false_iff.mpr hp) (hb ▸ ha)⟩

/-- C7: a CSV whose rows all coerce imports successfully: per data row one
FeedbackEntry is queued with the coerced score and the row's comment, the
single commit makes exactly those rows visible, and the message reports the
row count. -/
theorem upload_csv_success (rows : List CsvRow) (st : DBState)
    (h : ∀ r ∈ rows, (coerceFloat r.score).isOk = true) :
    ∃ w, upload_csv_data (.ok rows) st
        = (.ok ("Successfully imported " ++ toString rows.length ++ " feedback entries"), w)
      ∧ w.feedback_entries.map FeedbackEntry.product_id
          = st.feedback_entries.map FeedbackEntry.product_id ++ rows.map CsvRow.product_id
      ∧ w.feedback_entries.map FeedbackEntry.score
          = st.feedback_entries.map FeedbackEntry.score
            ++ rows.map (fun r => ((coerceFloat r.score).toOption).getD 0)
      ∧ w.feedback_entries.map FeedbackEntry.comment
          = st.feedback_entries.map FeedbackEntry.comment ++ rows.map CsvRow.comment
      ∧ w.feedback_entries.length = st.feedback_entries.length + rows.length := by
  obtain ⟨w, hloop, h1, h2, h3, h4⟩ := uploadLoop_ok rows st 0 h
  refine ⟨w, ?_, h1, h2, h3, h4⟩
  simp only [upload_csv_data, hloop, Nat.zero_add]

/-- C7 witness: importing the two-row batch over the empty database. -/
theorem upload_csv_success_witness :
    ∃ w, upload_csv_data (.ok dupRows) emptyDB
        = (.ok ("Successfully imported " ++ toString dupRows.length ++ " feedback entries"), w)
      ∧ w.feedback_entries.map FeedbackEntry.product_id
          = emptyDB.feedback_entries.map FeedbackEntry.product_id ++ dupRows.map CsvRow.product_id
      ∧ w.feedback_entries.map FeedbackEntry.score
          = emptyDB.feedback_entries.map FeedbackEntry.score
            ++ dupRows.map (fun r => ((coerceFloat r.score).toOption).getD 0)
      ∧ w.feedback_entries.map FeedbackEntry.comment
          = emptyDB.feedback_entries.map FeedbackEntry.comment ++ dupRows.map CsvRow.comment
      ∧ w.feedback_entries.length = emptyDB.feedback_entries.length + dupRows.length :=
  upload_csv_success dupRows emptyDB (by decide)

/-- C6: a failure reading the file, or a row whose score cell does not
coerce, aborts the whole import: the committed storage is returned
unchanged and the reported client error wraps the underlying message after
"Error processing CSV: ". -/
theorem upload_csv_error_atomic (file : Except String (List CsvRow)) (st : DBState) :
    (∀ msg, file = .error msg →
      upload_csv_data file st
        = (.error (.httpException 400 ("Error processing CSV: " ++ msg)), st))
    ∧ (∀ rows, file = .ok rows →
        (∃ r ∈ rows, (coerceFloat r.score).isOk = false) →
        ∃ msg, upload_csv_data file st
          = (.error (.httpException 400 ("Error processing CSV: " ++ msg)), st)) := by
  refine ⟨fun msg hm => by simp [upload_csv_data, hm], fun rows hr hex => ?_⟩
  obtain ⟨msg, hmsg⟩ := uploadLoop_err rows st 0 hex
  exact ⟨msg, by simp [upload_csv_data, hr, hmsg]⟩

/-- C6 witness: a missing file, and a one-row file whose score cell cannot
be coerced, both abort with the wrapped message and unchanged storage. -/
theorem upload_csv_error_atomic_witness :
    upload_csv_data (.error "No such file: feedback.csv") emptyDB
      = (.error (.httpException 400
          ("Error processing CSV: " ++ "No such file: feedback.csv")), emptyDB)
    ∧ ∃ msg, upload_csv_data (.ok [⟨"P", Cell.bad "abc", none⟩]) emptyDB
        = (.error (.httpException 400 ("Error processing CSV: " ++ msg)), emptyDB) :=
  ⟨(upload_csv_error_atomic (.error "No such file: feedback.csv") emptyDB).1 _ rfl,
   (upload_csv_error_atomic (.ok [⟨"P", Cell.bad "abc", none⟩]) emptyDB).2 _ rfl
     ⟨⟨"P", Cell.bad "abc", none⟩, by decide, by decide⟩⟩

/-- C2: a successful import preserves the invariant that at most one
Product row exists per product_id; in particular the two-row batch sharing
the brand-new id "newP" yields exactly one Product row for "newP", two
FeedbackEntry rows, and the message reporting 2 imported entries. -/
theorem upload_csv_product_unique (file : Except String (List CsvRow)) (st : DBState)
    (hst : (st.products.map Product.product_id).Nodup) :
    (∀ msg w, upload_csv_data file st = (.ok msg, w) →
        (w.products.map Product.product_id).Nodup)
    ∧ (upload_csv_data (.ok dupRows) emptyDB).1
        = .ok "Successfully imported 2 feedback entries"
    ∧ ((upload_csv_data (.ok dupRows) emptyDB).2.products.filter
        (fun p => p.product_id == "newP")).length = 1
    ∧ ((upload_csv_data (.ok dupRows) emptyDB).2.feedback_entries.filter
        (fun e => e.product_id == "newP")).length = 2 := by
  refine ⟨fun msg w h => ?_, by decide, by decide, by decide⟩
  cases file with
  | error m => simp [upload_csv_data] at h
  | ok rows =>
    simp only [upload_csv_data] at h
    cases hl : uploadLoop rows st 0 with
    | error m => rw [hl] at h; simp at h
    | ok p =>
      obtain ⟨n, w2⟩ := p
      rw [hl] at h
      simp only [Prod.mk.injEq, Except.ok.injEq] at h
      rw [← h.2]
      exact uploadLoop_nodup rows st 0 n w2 hst hl

/-- C2 witness: applying the preservation at the duplicate-id batch over
the empty database. -/
theorem upload_csv_product_unique_witness :
    ((upload_csv_data (.ok dupRows) emptyDB).2.products.map Product.product_id).Nodup
    ∧ (upload_csv_data (.ok dupRows) emptyDB).1
        = .ok "Successfully imported 2 feedback entries" := by
  have h := upload_csv_product_unique (.ok dupRows) emptyDB (by decide)
  refine ⟨h.1 "Successfully imported 2 feedback entries"
      (upload_csv_data (.ok dupRows) emptyDB).2 ?_, h.2.1⟩
  decide

/-- C1: the averages endpoint returns exactly one record per distinct
product_id having at least one feedback row; each record carries the
group's size as feedback_count and the group's mean score rounded to two
decimals as average_score; for product "A" with scores 4.0 and 5.0 it
returns average 4.5 with count 2, and products with zero feedback do not
appear. -/
theorem get_product_averages_spec (st : DBState) :
    get_product_averages st = (.ok (product_average_rows st), st)
    ∧ ((product_average_rows st).map ProductAverage.product_id).Nodup
    ∧ (∀ pid : String,
        pid ∈ (product_average_rows st).map ProductAverage.product_id ↔
          ∃ e ∈ st.feedback_entries, e.product_id = pid)
    ∧ (∀ r ∈ product_average_rows st,
        r.feedback_count = (groupRows st r.product_id).length
        ∧ r.average_score
            = round2 (((groupRows st r.product_id).map FeedbackEntry.score).sum
                / ((groupRows st r.product_id).length : ℚ))
        ∧ (groupRows st r.product_id).length ≠ 0)
    ∧ product_average_rows exampleAB = [⟨"A", 9 / 2, 2⟩] := by
  have hmap : (product_average_rows st).map ProductAverage.product_id
      = (st.feedback_entries.map FeedbackEntry.product_id).dedup := by
    rw [product_average_rows, List.map_map]
    calc List.map (ProductAverage.product_id ∘ averageRow st)
          (st.feedback_entries.map FeedbackEntry.product_id).dedup
        = List.map id (st.feedback_entries.map FeedbackEntry.product_id).dedup :=
          List.map_congr_left (fun x _ => rfl)
      _ = _ := List.map_id _
  refine ⟨rfl, ?_, fun pid => ?_, fun r hr => ?_, ?_⟩
  · rw [hmap]; exact List.nodup_dedup _
  · rw [hmap, List.mem_dedup, List.mem_map]
  · rw [product_average_rows, List.mem_map] at hr
    obtain ⟨pid, hpid, rfl⟩ := hr
    refine ⟨rfl, rfl, ?_⟩
    show (groupRows st pid).length ≠ 0
    rw [List.mem_dedup, List.mem_map] at hpid
    obtain ⟨e, he, hpe⟩ := hpid
    have hmem : e ∈ groupRows st pid := by
      rw [groupRows, List.mem_filter]
      exact ⟨he, by simpa using hpe⟩
    intro hlen
    rw [List.length_eq_zero] at hlen
    rw [hlen] at hmem
    exact absurd hmem (List.not_mem_nil e)
  · simp [product_average_rows, exampleAB, averageRow, groupRows, round2]
    norm_num

/-- C1 witness: instantiating the record property at the single record of
the "A"/"B" example state. -/
theorem get_product_averages_spec_witness :
    ("A" ∈ (product_average_rows exampleAB).map ProductAverage.product_id ↔
      ∃ e ∈ exampleAB.feedback_entries, e.product_id = "A")
    ∧ (⟨"A", 9 / 2, 2⟩ : ProductAverage).feedback_count
        = (groupRows exampleAB (⟨"A", 9 / 2, 2⟩ : ProductAverage).product_id).length := by
  have h := get_product_averages_spec exampleAB
  refine ⟨h.2.2.1 "A", (h.2.2.2.1 ⟨"A", 9 / 2, 2⟩ ?_).1⟩
  rw [h.2.2.2.2]
  simp

end FeedbackApp
